import Mathlib

/-!
Verification development for the wispr-clone voice-dictation client.

The embedded code consists of:
  * `DG` — the `DeepgramService` class (`src/services/deepgram.ts`); the
    repository carries two revisions of its `Transcript` event handler, both
    embedded here (`onTranscriptRev1`, `onTranscriptRev2`), plus the shared
    `UtteranceEnd` handler, `sendAudio` and `stop`.
  * `Hook` — the `useVoiceRecording` hook (`src/hooks/useVoiceRecording.ts`,
    final revision): `startRecording`, `stopRecording` and the
    `onSpeechEnd` / `onError` callbacks.

Stateful handlers are embedded as pure functions from an explicit state to a
new state together with a list of emitted effects (callbacks fired, connection
operations, Tauri invocations), so ordering and duplicate-suppression claims
can be stated over the effect trace.
-/

namespace DG

/-- State of one `DeepgramService` instance: the three transcript fields plus
whether `this.connection` is non-null with `getReadyState() === 1`. -/
structure DGState where
  finalTranscript : String
  interimTranscript : String
  hasSpeechFinal : Bool
  connOpen : Bool
  deriving DecidableEq, Repr

/-- Effects a `DeepgramService` handler can perform: fire a callback, request
graceful connection finish, or send a chunk over the socket. -/
inductive DGEffect where
  | cbTranscript (text : String) (isFinal : Bool)
  | cbSpeechEnd (finalText : String)
  | connFinish
  | connSend (chunk : Nat)
  deriving DecidableEq, Repr

/-- Payload of a `LiveTranscriptionEvents.Transcript` event: the transcript of
the first alternative (already defaulted to `""`), `is_final`, `speech_final`. -/
structure TranscriptEvent where
  transcript : String
  is_final : Bool
  speech_final : Bool
  deriving DecidableEq, Repr

/-- JS `a + (a ? " " : "") + b`: space-join two segments, with no leading space
when the accumulator is empty (empty string is falsy). -/
def appendSeg (acc t : String) : String :=
  acc ++ (if acc = "" then "" else " ") ++ t

/-- Space-join a list of committed segments, the way repeated `appendSeg`
commits build up `finalTranscript`. -/
def joinSpace (l : List String) : String :=
  l.foldl appendSeg ""

/-- `DeepgramService.stop()`: finish the connection when open, null it, and
reset all three transcript fields. -/
def dgStop (s : DGState) : DGState × List DGEffect :=
  (⟨"", "", false, false⟩, if s.connOpen then [DGEffect.connFinish] else [])

/-- Rev 1 `Transcript` handler (`deepgram.ts`, first revision, lines 43-102):
empty-transcript guard; `speech_final` branch commits, fires both callbacks and
finishes the connection, guarded by `hasSpeechFinal`; `is_final` branch commits
and fires `onTranscript(finalTranscript, true)` (the interim field is left
untouched); interim branch stores the hypothesis and fires the combined
display string. -/
def onTranscriptRev1 (s : DGState) (d : TranscriptEvent) : DGState × List DGEffect :=
  if d.transcript = "" then (s, [])
  else if d.speech_final then
    if s.hasSpeechFinal then (s, [])
    else
      let ft := appendSeg s.finalTranscript d.transcript
      ({ s with hasSpeechFinal := true, finalTranscript := ft },
        [DGEffect.cbTranscript ft true]
          ++ (if s.connOpen then [DGEffect.connFinish] else [])
          ++ [DGEffect.cbSpeechEnd ft])
  else if d.is_final then
    if s.hasSpeechFinal then (s, [])
    else
      let ft := appendSeg s.finalTranscript d.transcript
      ({ s with finalTranscript := ft }, [DGEffect.cbTranscript ft true])
  else
    if s.hasSpeechFinal then (s, [])
    else
      ({ s with interimTranscript := d.transcript },
        [DGEffect.cbTranscript (appendSeg s.finalTranscript d.transcript) false])

/-- Rev 2 `Transcript` handler (`deepgram.ts`, second revision, lines 204-236):
empty-transcript guard; `is_final` commits the chunk and clears the interim
field, otherwise the interim field is replaced and the combined display string
is emitted; then, if `speech_final` and not already latched, `hasSpeechFinal`
is set, `onSpeechEnd(finalTranscript)` fires and `this.stop()` resets the
service. -/
def onTranscriptRev2 (s : DGState) (d : TranscriptEvent) : DGState × List DGEffect :=
  if d.transcript = "" then (s, [])
  else
    let step1 : DGState × List DGEffect :=
      if d.is_final then
        let ft := appendSeg s.finalTranscript d.transcript
        ({ s with finalTranscript := ft, interimTranscript := "" },
          [DGEffect.cbTranscript ft true])
      else
        ({ s with interimTranscript := d.transcript },
          [DGEffect.cbTranscript (appendSeg s.finalTranscript d.transcript) false])
    let s1 := step1.1
    if d.speech_final && !s1.hasSpeechFinal then
      let s2 := { s1 with hasSpeechFinal := true }
      let stopped := dgStop s2
      (stopped.1, step1.2 ++ [DGEffect.cbSpeechEnd s2.finalTranscript] ++ stopped.2)
    else
      (s1, step1.2)

/-- `UtteranceEnd` handler (identical in both revisions): fire
`onSpeechEnd(finalTranscript)` only when `speech_final` has not been processed
and the committed transcript is non-empty (JS string truthiness). -/
def onUtteranceEnd (s : DGState) : DGState × List DGEffect :=
  if !s.hasSpeechFinal && !(s.finalTranscript = "") then
    (s, [DGEffect.cbSpeechEnd s.finalTranscript])
  else
    (s, [])

/-- `DeepgramService.sendAudio` (identical in both revisions): forward the
chunk only when the connection is non-null and in ready state 1. -/
def sendAudio (s : DGState) (chunk : Nat) : DGState × List DGEffect :=
  if s.connOpen then (s, [DGEffect.connSend chunk]) else (s, [])

/-- Fold the rev 2 `Transcript` handler over a list of events, keeping the
resulting service state. -/
def runRev2 (s : DGState) (evs : List TranscriptEvent) : DGState :=
  evs.foldl (fun s e => (onTranscriptRev2 s e).1) s

/-- Fold the rev 1 `Transcript` handler over a list of events, keeping the
resulting service state. -/
def runRev1 (s : DGState) (evs : List TranscriptEvent) : DGState :=
  evs.foldl (fun s e => (onTranscriptRev1 s e).1) s

end DG

namespace Hook

/-- Observable and internal state of the `useVoiceRecording` hook (final
revision): the four pieces of React state, whether `deepgramRef.current` is
non-null (`dgRef`), and the two `useRef` latches. -/
structure HookState where
  isRecording : Bool
  transcript : String
  isProcessing : Bool
  error : Option String
  dgRef : Bool
  hasEnded : Bool
  isStarting : Bool
  deriving DecidableEq, Repr

/-- One primitive step the hook code performs, in program order: React state
setters, ref writes, service calls and Tauri invocations. -/
inductive HAct where
  | setErr (e : Option String)
  | setTranscriptTo (t : String)
  | setIsRecording (b : Bool)
  | setIsProcessing (b : Bool)
  | setHasEnded (b : Bool)
  | setIsStarting (b : Bool)
  | stopAudio
  | dgStop
  | dgClear
  | dgNew
  | dgStart
  | audioStart
  | paste (t : String)
  | hideWindow
  deriving DecidableEq, Repr

/-- Effect of one primitive step on the hook state; service calls and Tauri
invocations change no hook-local state. -/
def applyAct (s : HookState) : HAct → HookState
  | HAct.setErr e => { s with error := e }
  | HAct.setTranscriptTo t => { s with transcript := t }
  | HAct.setIsRecording b => { s with isRecording := b }
  | HAct.setIsProcessing b => { s with isProcessing := b }
  | HAct.setHasEnded b => { s with hasEnded := b }
  | HAct.setIsStarting b => { s with isStarting := b }
  | HAct.dgClear => { s with dgRef := false }
  | HAct.dgNew => { s with dgRef := true }
  | _ => s

/-- Run a trace of primitive steps over the hook state. -/
def runActs (s : HookState) (l : List HAct) : HookState :=
  l.foldl applyAct s

/-- Whether `startRecording` completes normally or the audio-capture
acquisition (`getUserMedia`) throws into the catch block. -/
inductive StartOutcome where
  | ok
  | audioFail
  deriving DecidableEq, Repr

/-- `startRecording` after the synchronous guard prefix: clean up an old
connection if present, reset the observable state, open the Deepgram link,
start audio capture, and either clear the latch (success) or run the catch
block (audio acquisition failure). -/
def startRestTrace (s : HookState) (o : StartOutcome) : List HAct :=
  (if s.dgRef then [HAct.dgStop, HAct.dgClear] else [])
    ++ [HAct.setErr none, HAct.setTranscriptTo "", HAct.setIsRecording true,
        HAct.setHasEnded false, HAct.dgNew, HAct.dgStart, HAct.audioStart]
    ++ (match o with
        | StartOutcome.ok => [HAct.setIsStarting false]
        | StartOutcome.audioFail =>
            [HAct.setErr (some "Failed to start recording"),
             HAct.setIsRecording false, HAct.setIsStarting false])

/-- The synchronous prefix of `startRecording` (runs before any `await`):
check the `isStartingRef`/`isRecording` guard and, when it passes, set the
`isStartingRef` latch. -/
def startSyncTrace (s : HookState) : List HAct :=
  if s.isStarting || s.isRecording then [] else [HAct.setIsStarting true]

/-- Full trace of one `startRecording()` call (final revision, lines
111-198): no-op when the guard rejects, otherwise the synchronous latch set
followed by the rest of the body. -/
def startTrace (s : HookState) (o : StartOutcome) : List HAct :=
  if s.isStarting || s.isRecording then []
  else HAct.setIsStarting true :: startRestTrace { s with isStarting := true } o

/-- Hook state after one `startRecording()` call. -/
def startRecording (s : HookState) (o : StartOutcome) : HookState :=
  runActs s (startTrace s o)

/-- Trace of one `onSpeechEnd(finalText)` delivery (final revision, lines
139-174): no-op when `hasEndedRef` is already set; otherwise latch, stop the
audio capture, stop the Deepgram service when the ref is non-null, clear the
ref, flip to processing, and request the paste; on paste failure run the
catch block. The success branch's `setTimeout` continuation is
`timeoutTrace` below. -/
def speechEndTrace (s : HookState) (finalText : String) (pasteOk : Bool) : List HAct :=
  if s.hasEnded then []
  else
    [HAct.setHasEnded true, HAct.stopAudio]
      ++ (if s.dgRef then [HAct.dgStop] else [])
      ++ [HAct.dgClear, HAct.setIsRecording false, HAct.setIsProcessing true,
          HAct.paste finalText]
      ++ (if pasteOk then []
          else [HAct.setErr (some "Failed to paste text"),
                HAct.setIsProcessing false, HAct.setIsStarting false])

/-- Hook state after one `onSpeechEnd` delivery (before the `setTimeout`
continuation runs). -/
def onSpeechEnd (s : HookState) (finalText : String) (pasteOk : Bool) : HookState :=
  runActs s (speechEndTrace s finalText pasteOk)

/-- The `setTimeout` continuation of the paste success branch: hide the pill
window, leave processing, clear the transcript, release the start latch. -/
def timeoutTrace : List HAct :=
  [HAct.hideWindow, HAct.setIsProcessing false, HAct.setTranscriptTo "",
   HAct.setIsStarting false]

/-- Trace of one `stopRecording()` call (final revision, lines 200-208). -/
def stopTrace (s : HookState) : List HAct :=
  [HAct.stopAudio]
    ++ (if s.dgRef then [HAct.dgStop] else [])
    ++ [HAct.dgClear, HAct.setIsRecording false, HAct.setHasEnded false,
        HAct.setIsStarting false]

/-- Hook state after one `stopRecording()` call. -/
def stopRecording (s : HookState) : HookState :=
  runActs s (stopTrace s)

/-- The `onError` callback (final revision, lines 176-181). -/
def onError (s : HookState) (msg : String) : HookState :=
  runActs s [HAct.setErr (some msg), HAct.setIsRecording false,
             HAct.setIsStarting false]

/-- Boolean matcher: is this step a paste request? -/
def isPaste : HAct → Bool
  | HAct.paste _ => true
  | _ => false

/-- Boolean matcher: is this step the transition into the processing state? -/
def isProcOn : HAct → Bool
  | HAct.setIsProcessing true => true
  | _ => false

/-- Boolean matcher: is this step the open of the transcription link? -/
def isDgStart : HAct → Bool
  | HAct.dgStart => true
  | _ => false

/-- Boolean matcher: is this step the open of the audio capture? -/
def isAudioStart : HAct → Bool
  | HAct.audioStart => true
  | _ => false

end Hook

namespace Audio

/-- State of the `AudioService` (`src/services/audio.ts`): whether
`this.mediaRecorder` is non-null and in a non-inactive state, and whether
`this.audioStream` is non-null. -/
structure AudioState where
  recorderActive : Option Bool
  streamLive : Bool
  deriving DecidableEq, Repr

/-- Effects of `AudioService.stopRecording`. -/
inductive AEffect where
  | recorderStop
  | tracksStop
  deriving DecidableEq, Repr

/-- `AudioService.stopRecording` (lines 41-53): stop the recorder only when
non-null and not inactive, stop the stream tracks when the stream is
non-null, then null both references. -/
def stopRecording (a : AudioState) : AudioState × List AEffect :=
  (⟨none, false⟩,
    (if a.recorderActive = some true then [AEffect.recorderStop] else [])
      ++ (if a.streamLive then [AEffect.tracksStop] else []))

end Audio

/-- C1: delivering the speech-ended signal twice in one session triggers
exactly one teardown to processing and exactly one paste request; once the
`hasEnded` latch is set, every later `onSpeechEnd` delivery is ignored with
no state change and no emitted effects. -/
theorem onSpeechEnd_idempotent (s : Hook.HookState) (t1 t2 : String)
    (ok1 ok2 : Bool) (h : s.hasEnded = false) :
    (Hook.onSpeechEnd s t1 ok1).hasEnded = true ∧
    Hook.speechEndTrace (Hook.onSpeechEnd s t1 ok1) t2 ok2 = [] ∧
    Hook.onSpeechEnd (Hook.onSpeechEnd s t1 ok1) t2 ok2 = Hook.onSpeechEnd s t1 ok1 ∧
    (Hook.speechEndTrace s t1 ok1).countP Hook.isPaste = 1 ∧
    (Hook.speechEndTrace s t1 ok1).countP Hook.isProcOn = 1 ∧
    (∀ s2 : Hook.HookState, ∀ t : String, ∀ ok : Bool, s2.hasEnded = true →
      Hook.speechEndTrace s2 t ok = [] ∧ Hook.onSpeechEnd s2 t ok = s2) := by
  have hgen : ∀ s2 : Hook.HookState, ∀ t : String, ∀ ok : Bool, s2.hasEnded = true →
      Hook.speechEndTrace s2 t ok = [] ∧ Hook.onSpeechEnd s2 t ok = s2 := by
    intro s2 t ok h2
    constructor
    · simp [Hook.speechEndTrace, h2]
    · simp [Hook.onSpeechEnd, Hook.speechEndTrace, h2, Hook.runActs]
  have hend : (Hook.onSpeechEnd s t1 ok1).hasEnded = true := by
    obtain ⟨ir, tr, ip, er, dg, he, ist⟩ := s
    simp only [Hook.HookState.hasEnded] at h
    subst h
    cases dg <;> cases ok1 <;>
      simp [Hook.onSpeechEnd, Hook.speechEndTrace, Hook.runActs, Hook.applyAct]
  refine ⟨hend, (hgen _ t2 ok2 hend).1, (hgen _ t2 ok2 hend).2, ?_, ?_, hgen⟩
  · obtain ⟨ir, tr, ip, er, dg, he, ist⟩ := s
    simp only [Hook.HookState.hasEnded] at h
    subst h
    cases dg <;> cases ok1 <;>
      simp [Hook.speechEndTrace, Hook.isPaste, List.countP_cons, List.countP_append]
  · obtain ⟨ir, tr, ip, er, dg, he, ist⟩ := s
    simp only [Hook.HookState.hasEnded] at h
    subst h
    cases dg <;> cases ok1 <;>
      simp [Hook.speechEndTrace, Hook.isProcOn, List.countP_cons, List.countP_append]

/-- Witness for C1 at a concrete state: first delivery sets the latch, the
second delivery emits nothing. -/
theorem onSpeechEnd_idempotent_witness :
    (Hook.onSpeechEnd ⟨true, "hello there", false, none, true, false, false⟩
        "hello there" true).hasEnded = true ∧
    Hook.speechEndTrace
      (Hook.onSpeechEnd ⟨true, "hello there", false, none, true, false, false⟩
        "hello there" true) "hello there" true = [] :=
  ⟨(onSpeechEnd_idempotent ⟨true, "hello there", false, none, true, false, false⟩
      "hello there" "hello there" true true rfl).1,
   (onSpeechEnd_idempotent ⟨true, "hello there", false, none, true, false, false⟩
      "hello there" "hello there" true true rfl).2.1⟩

/-- C5: for every end-of-utterance with a live link, the teardown performs
its side effects in exactly this order — latch, stop audio capture, stop the
Deepgram service, discard the link reference — and only after those does the
session move to processing (`isRecording=false`, `isProcessing=true`),
followed by the paste request. -/
theorem teardown_order (s : Hook.HookState) (t : String) (ok : Bool)
    (h : s.hasEnded = false) (hdg : s.dgRef = true) :
    Hook.speechEndTrace s t ok =
      [Hook.HAct.setHasEnded true, Hook.HAct.stopAudio, Hook.HAct.dgStop,
       Hook.HAct.dgClear, Hook.HAct.setIsRecording false,
       Hook.HAct.setIsProcessing true, Hook.HAct.paste t]
        ++ (if ok then []
            else [Hook.HAct.setErr (some "Failed to paste text"),
                  Hook.HAct.setIsProcessing false, Hook.HAct.setIsStarting false]) ∧
    (Hook.onSpeechEnd s t true).isRecording = false ∧
    (Hook.onSpeechEnd s t true).isProcessing = true ∧
    (Hook.onSpeechEnd s t true).dgRef = false := by
  obtain ⟨ir, tr, ip, er, dg, he, ist⟩ := s
  simp only [Hook.HookState.hasEnded] at h
  simp only [Hook.HookState.dgRef] at hdg
  subst h; subst hdg
  refine ⟨?_, ?_, ?_, ?_⟩ <;>
    cases ok <;>
      simp [Hook.speechEndTrace, Hook.onSpeechEnd, Hook.runActs, Hook.applyAct]

/-- Witness for C5 at a concrete listening state with an open link. -/
theorem teardown_order_witness :
    Hook.speechEndTrace ⟨true, "hi", false, none, true, false, false⟩ "hi" true =
      [Hook.HAct.setHasEnded true, Hook.HAct.stopAudio, Hook.HAct.dgStop,
       Hook.HAct.dgClear, Hook.HAct.setIsRecording false,
       Hook.HAct.setIsProcessing true, Hook.HAct.paste "hi"] ++ [] ∧
    (Hook.onSpeechEnd ⟨true, "hi", false, none, true, false, false⟩ "hi" true).isProcessing = true := by
  have h := teardown_order ⟨true, "hi", false, none, true, false, false⟩ "hi" true rfl rfl
  exact ⟨by simpa using h.1, h.2.2.1⟩

/-- C7: manual `stopRecording()` is safe from any hook state: it stops the
audio capture, stops (when a link exists) and discards the transcription
link, resets both latches, clears `isRecording`, and never issues a paste
request; `AudioService.stopRecording` itself is safe to call repeatedly or
when capture never started — a second call touches nothing. -/
theorem stopRecording_safe (s : Hook.HookState) (a : Audio.AudioState) :
    (Hook.stopRecording s).isRecording = false ∧
    (Hook.stopRecording s).hasEnded = false ∧
    (Hook.stopRecording s).isStarting = false ∧
    (Hook.stopRecording s).dgRef = false ∧
    (Hook.stopTrace s).countP Hook.isPaste = 0 ∧
    Hook.HAct.stopAudio ∈ Hook.stopTrace s ∧
    Hook.HAct.dgClear ∈ Hook.stopTrace s ∧
    (s.dgRef = true → Hook.HAct.dgStop ∈ Hook.stopTrace s) ∧
    Audio.stopRecording (Audio.stopRecording a).1 = (⟨none, false⟩, []) := by
  obtain ⟨ir, tr, ip, er, dg, he, ist⟩ := s
  refine ⟨?_, ?_, ?_, ?_, ?_, ?_, ?_, ?_, ?_⟩ <;>
    cases dg <;>
      simp [Hook.stopRecording, Hook.stopTrace, Hook.runActs, Hook.applyAct,
        Hook.isPaste, List.countP_cons, List.countP_append, Audio.stopRecording]

/-- Witness for C7 at a concrete mid-listening state with a live link and an
active recorder. -/
theorem stopRecording_safe_witness :
    (Hook.stopRecording ⟨true, "x", false, none, true, false, true⟩).isRecording = false ∧
    Hook.HAct.dgStop ∈ Hook.stopTrace ⟨true, "x", false, none, true, false, true⟩ :=
  ⟨(stopRecording_safe ⟨true, "x", false, none, true, false, true⟩ ⟨some true, true⟩).1,
   (stopRecording_safe ⟨true, "x", false, none, true, false, true⟩
      ⟨some true, true⟩).2.2.2.2.2.2.2.1 rfl⟩

/-- C2: `startRecording()` while already starting or recording is a no-op
(no effects, no state change); the `isStarting` latch is the very first,
synchronous action of an accepted call; and when a second call arrives right
after the first call's synchronous prefix (before the first completes), the
second call emits nothing, so the combined execution opens exactly one
TranscriptionLink/AudioCapture pair. -/
theorem startRecording_no_double (s : Hook.HookState) (o o' : Hook.StartOutcome)
    (h1 : s.isStarting = false) (h2 : s.isRecording = false) :
    Hook.startTrace (Hook.runActs s (Hook.startSyncTrace s)) o' = [] ∧
    Hook.startRecording (Hook.runActs s (Hook.startSyncTrace s)) o' =
      Hook.runActs s (Hook.startSyncTrace s) ∧
    (Hook.startTrace s o).countP Hook.isDgStart = 1 ∧
    (Hook.startTrace s o).countP Hook.isAudioStart = 1 ∧
    List.take 1 (Hook.startTrace s o) = [Hook.HAct.setIsStarting true] ∧
    (∀ s2 : Hook.HookState, ∀ o2 : Hook.StartOutcome,
      s2.isStarting = true ∨ s2.isRecording = true →
      Hook.startTrace s2 o2 = [] ∧ Hook.startRecording s2 o2 = s2) := by
  have hgen : ∀ s2 : Hook.HookState, ∀ o2 : Hook.StartOutcome,
      s2.isStarting = true ∨ s2.isRecording = true →
      Hook.startTrace s2 o2 = [] ∧ Hook.startRecording s2 o2 = s2 := by
    intro s2 o2 h2'
    have hg : (s2.isStarting || s2.isRecording) = true := by
      rcases h2' with h' | h' <;> simp [h']
    constructor
    · simp [Hook.startTrace, hg]
    · simp [Hook.startRecording, Hook.startTrace, hg, Hook.runActs]
  obtain ⟨ir, tr, ip, er, dg, he, ist⟩ := s
  simp only [Hook.HookState.isStarting] at h1
  simp only [Hook.HookState.isRecording] at h2
  subst h1; subst h2
  have hsync : Hook.runActs ⟨false, tr, ip, er, dg, he, false⟩
      (Hook.startSyncTrace ⟨false, tr, ip, er, dg, he, false⟩) =
      ⟨false, tr, ip, er, dg, he, true⟩ := by
    simp [Hook.startSyncTrace, Hook.runActs, Hook.applyAct]
  rw [hsync]
  refine ⟨(hgen _ o' (Or.inl rfl)).1, (hgen _ o' (Or.inl rfl)).2, ?_, ?_, ?_, hgen⟩ <;>
    cases dg <;> cases o <;>
      simp [Hook.startTrace, Hook.startRestTrace, Hook.isDgStart, Hook.isAudioStart,
        List.countP_cons, List.countP_append]

/-- Witness for C2 at a concrete idle state: the interleaved second call is a
no-op and the first call opens exactly one link. -/
theorem startRecording_no_double_witness :
    Hook.startTrace
      (Hook.runActs ⟨false, "", false, none, false, false, false⟩
        (Hook.startSyncTrace ⟨false, "", false, none, false, false, false⟩))
      Hook.StartOutcome.ok = [] ∧
    (Hook.startTrace ⟨false, "", false, none, false, false, false⟩
        Hook.StartOutcome.ok).countP Hook.isDgStart = 1 :=
  ⟨(startRecording_no_double ⟨false, "", false, none, false, false, false⟩
      Hook.StartOutcome.ok Hook.StartOutcome.ok rfl rfl).1,
   (startRecording_no_double ⟨false, "", false, none, false, false, false⟩
      Hook.StartOutcome.ok Hook.StartOutcome.ok rfl rfl).2.2.1⟩

/-- C6: after a failed acquisition — whether the audio start throws into the
catch block or the service reports through `onError` — the observable state
has `isRecording=false` and a non-null error, the `isStarting` latch is
cleared, and a subsequent `startRecording()` is accepted by the guard (its
synchronous prefix sets the latch and the call opens a link). -/
theorem startFail_restartable (s : Hook.HookState) (msg : String)
    (h1 : s.isStarting = false) (h2 : s.isRecording = false) :
    (Hook.startRecording s Hook.StartOutcome.audioFail).isRecording = false ∧
    (Hook.startRecording s Hook.StartOutcome.audioFail).error =
      some "Failed to start recording" ∧
    (Hook.startRecording s Hook.StartOutcome.audioFail).isStarting = false ∧
    Hook.startSyncTrace (Hook.startRecording s Hook.StartOutcome.audioFail) =
      [Hook.HAct.setIsStarting true] ∧
    (Hook.startTrace (Hook.startRecording s Hook.StartOutcome.audioFail)
        Hook.StartOutcome.ok).countP Hook.isDgStart = 1 ∧
    (∀ s2 : Hook.HookState, (Hook.onError s2 msg).isRecording = false ∧
      (Hook.onError s2 msg).error = some msg ∧
      (Hook.onError s2 msg).isStarting = false) := by
  obtain ⟨ir, tr, ip, er, dg, he, ist⟩ := s
  simp only [Hook.HookState.isStarting] at h1
  simp only [Hook.HookState.isRecording] at h2
  subst h1; subst h2
  refine ⟨?_, ?_, ?_, ?_, ?_, ?_⟩ <;>
    [skip; skip; skip; skip; skip;
     exact fun s2 => by simp [Hook.onError, Hook.runActs, Hook.applyAct]] <;>
    cases dg <;>
      simp [Hook.startRecording, Hook.startTrace, Hook.startRestTrace,
        Hook.startSyncTrace, Hook.runActs, Hook.applyAct, Hook.isDgStart,
        List.countP_cons, List.countP_append]

/-- Witness for C6 at a concrete idle state. -/
theorem startFail_restartable_witness :
    (Hook.startRecording ⟨false, "", false, none, false, false, false⟩
        Hook.StartOutcome.audioFail).isRecording = false ∧
    (Hook.startRecording ⟨false, "", false, none, false, false, false⟩
        Hook.StartOutcome.audioFail).isStarting = false :=
  ⟨(startFail_restartable ⟨false, "", false, none, false, false, false⟩
      "Deepgram error" rfl rfl).1,
   (startFail_restartable ⟨false, "", false, none, false, false, false⟩
      "Deepgram error" rfl rfl).2.2.1⟩

/-- C8: an audio chunk handed to `sendAudio` while the connection is absent
or not ready is silently dropped: no send effect and no state change. -/
theorem sendAudio_dropped (s : DG.DGState) (chunk : Nat)
    (h : s.connOpen = false) :
    DG.sendAudio s chunk = (s, []) := by
  simp [DG.sendAudio, h]

/-- Witness for C8: a chunk arriving mid-teardown is dropped. -/
theorem sendAudio_dropped_witness :
    DG.sendAudio ⟨"hi", "", true, false⟩ 7 = (⟨"hi", "", true, false⟩, []) :=
  sendAudio_dropped ⟨"hi", "", true, false⟩ 7 rfl

/-- C9: a `Transcript` event with empty transcript text makes both revisions
of the handler return immediately: no callback fires and every service field
is unchanged. -/
theorem emptyTranscript_noop (s : DG.DGState) (d : DG.TranscriptEvent)
    (h : d.transcript = "") :
    DG.onTranscriptRev1 s d = (s, []) ∧ DG.onTranscriptRev2 s d = (s, []) := by
  constructor <;> simp [DG.onTranscriptRev1, DG.onTranscriptRev2, h]

/-- Witness for C9: an empty final chunk is ignored by both revisions. -/
theorem emptyTranscript_noop_witness :
    DG.onTranscriptRev1 ⟨"a", "b", false, true⟩ ⟨"", true, true⟩ =
      (⟨"a", "b", false, true⟩, []) ∧
    DG.onTranscriptRev2 ⟨"a", "b", false, true⟩ ⟨"", true, true⟩ =
      (⟨"a", "b", false, true⟩, []) :=
  emptyTranscript_noop ⟨"a", "b", false, true⟩ ⟨"", true, true⟩ rfl

/-- C10: the fallback `UtteranceEnd` handler is a no-op when `speech_final`
was already processed or when nothing has been committed, and whenever it
does fire `onSpeechEnd` the delivered text is the committed non-empty
`finalTranscript`. -/
theorem utteranceEnd_guarded (s : DG.DGState) :
    (s.hasSpeechFinal = true → DG.onUtteranceEnd s = (s, [])) ∧
    (s.finalTranscript = "" → DG.onUtteranceEnd s = (s, [])) ∧
    (∀ t : String, DG.DGEffect.cbSpeechEnd t ∈ (DG.onUtteranceEnd s).2 →
      s.hasSpeechFinal = false ∧ t = s.finalTranscript ∧ t ≠ "") := by
  refine ⟨fun h => by simp [DG.onUtteranceEnd, h],
          fun h => by simp [DG.onUtteranceEnd, h], ?_⟩
  intro t ht
  by_cases h1 : s.hasSpeechFinal = true
  · simp [DG.onUtteranceEnd, h1] at ht
  · by_cases h2 : s.finalTranscript = ""
    · simp [DG.onUtteranceEnd, h2] at ht
    · simp [DG.onUtteranceEnd, h1, h2] at ht
      exact ⟨by simpa using h1, ht, ht ▸ h2⟩

/-- Witness for C10: a completed primary path silences the fallback, and a
fallback that does fire carries the committed text. -/
theorem utteranceEnd_guarded_witness :
    DG.onUtteranceEnd ⟨"hi", "", true, true⟩ = (⟨"hi", "", true, true⟩, []) ∧
    ("hi" : String) ≠ "" :=
  ⟨(utteranceEnd_guarded ⟨"hi", "", true, true⟩).1 rfl,
   ((utteranceEnd_guarded ⟨"hi", "x", false, true⟩).2.2 "hi"
      (by simp [DG.onUtteranceEnd])).2.2⟩

/-- Helper: committing nothing — a run of pure interim events (neither
`is_final` nor `speech_final`) leaves `finalTranscript` and `hasSpeechFinal`
of the rev 2 service untouched. -/
theorem runRev2_interim_keeps (evs : List DG.TranscriptEvent) (s : DG.DGState)
    (h : ∀ e ∈ evs, e.is_final = false ∧ e.speech_final = false) :
    (DG.runRev2 s evs).finalTranscript = s.finalTranscript ∧
    (DG.runRev2 s evs).hasSpeechFinal = s.hasSpeechFinal := by
  induction evs generalizing s with
  | nil => simp [DG.runRev2]
  | cons e rest ih =>
    have he := h e (List.mem_cons_self e rest)
    have hrest : ∀ e' ∈ rest, e'.is_final = false ∧ e'.speech_final = false :=
      fun e' h' => h e' (List.mem_cons_of_mem e h')
    have hstep : ((DG.onTranscriptRev2 s e).1).finalTranscript = s.finalTranscript ∧
        ((DG.onTranscriptRev2 s e).1).hasSpeechFinal = s.hasSpeechFinal := by
      by_cases ht : e.transcript = ""
      · simp [DG.onTranscriptRev2, ht]
      · simp [DG.onTranscriptRev2, ht, he.1, he.2]
    have hrun : DG.runRev2 s (e :: rest) = DG.runRev2 (DG.onTranscriptRev2 s e).1 rest := rfl
    rw [hrun]
    have hih := ih (DG.onTranscriptRev2 s e).1 hrest
    exact ⟨hih.1.trans hstep.1, hih.2.trans hstep.2⟩

/-- Helper: same preservation for the rev 1 handler. -/
theorem runRev1_interim_keeps (evs : List DG.TranscriptEvent) (s : DG.DGState)
    (h : ∀ e ∈ evs, e.is_final = false ∧ e.speech_final = false) :
    (DG.runRev1 s evs).finalTranscript = s.finalTranscript ∧
    (DG.runRev1 s evs).hasSpeechFinal = s.hasSpeechFinal := by
  induction evs generalizing s with
  | nil => simp [DG.runRev1]
  | cons e rest ih =>
    have he := h e (List.mem_cons_self e rest)
    have hrest : ∀ e' ∈ rest, e'.is_final = false ∧ e'.speech_final = false :=
      fun e' h' => h e' (List.mem_cons_of_mem e h')
    have hstep : ((DG.onTranscriptRev1 s e).1).finalTranscript = s.finalTranscript ∧
        ((DG.onTranscriptRev1 s e).1).hasSpeechFinal = s.hasSpeechFinal := by
      by_cases ht : e.transcript = ""
      · simp [DG.onTranscriptRev1, ht]
      · by_cases hsf : s.hasSpeechFinal = true <;>
          simp [DG.onTranscriptRev1, ht, he.1, he.2, hsf]
    have hrun : DG.runRev1 s (e :: rest) = DG.runRev1 (DG.onTranscriptRev1 s e).1 rest := rfl
    rw [hrun]
    have hih := ih (DG.onTranscriptRev1 s e).1 hrest
    exact ⟨hih.1.trans hstep.1, hih.2.trans hstep.2⟩

/-- Helper: appending one more committed segment to a space-join. -/
theorem joinSpace_append (prevs : List String) (t : String) :
    DG.joinSpace (prevs ++ [t]) = DG.appendSeg (DG.joinSpace prevs) t := by
  simp [DG.joinSpace, List.foldl_append]

/-- C3: after any run of interim events followed by a final event, the
display string emitted by the `Transcript` handler is exactly the space-join
of all previously committed final texts plus the new one, marked final, with
no interim text in it; rev 2 moreover clears the stored interim field, and
rev 1 emits the same display string while its primary latch is unset. -/
theorem display_after_final (prevs : List String) (ints : List DG.TranscriptEvent)
    (ftext : String) (hft : ftext ≠ "")
    (hints : ∀ e ∈ ints, e.is_final = false ∧ e.speech_final = false)
    (s0 : DG.DGState) (hfin : s0.finalTranscript = DG.joinSpace prevs) :
    (DG.onTranscriptRev2 (DG.runRev2 s0 ints) ⟨ftext, true, false⟩).2 =
      [DG.DGEffect.cbTranscript (DG.joinSpace (prevs ++ [ftext])) true] ∧
    ((DG.onTranscriptRev2 (DG.runRev2 s0 ints) ⟨ftext, true, false⟩).1).interimTranscript = "" ∧
    (s0.hasSpeechFinal = false →
      (DG.onTranscriptRev1 (DG.runRev1 s0 ints) ⟨ftext, true, false⟩).2 =
        [DG.DGEffect.cbTranscript (DG.joinSpace (prevs ++ [ftext])) true]) := by
  have h2 := runRev2_interim_keeps ints s0 hints
  have h1 := runRev1_interim_keeps ints s0 hints
  refine ⟨?_, ?_, ?_⟩
  · simp [DG.onTranscriptRev2, hft, h2.1, hfin, joinSpace_append]
  · simp [DG.onTranscriptRev2, hft]
  · intro hsf
    have : (DG.runRev1 s0 ints).hasSpeechFinal = false := h1.2.trans hsf
    simp [DG.onTranscriptRev1, hft, h1.1, hfin, this, joinSpace_append]

/-- Witness for C3, the round-trip of the spec: segment `"hello"` already
committed, an interim `"wor"`, then final `"world"` displays exactly
`"hello world"`. -/
theorem display_after_final_witness :
    (DG.onTranscriptRev2
        (DG.runRev2 ⟨"hello", "", false, true⟩ [⟨"wor", false, false⟩])
        ⟨"world", true, false⟩).2 =
      [DG.DGEffect.cbTranscript "hello world" true] := by
  have h := display_after_final ["hello"] [⟨"wor", false, false⟩] "world"
    (by decide) (by simp) ⟨"hello", "", false, true⟩ (by decide)
  have hjoin : DG.joinSpace (["hello"] ++ ["world"]) = "hello world" := by decide
  rw [h.1, hjoin]

/-- C4 counterexample: in the rev 1 handler a plain final chunk does not
clear the stored interim hypothesis — from interim `"a"`, processing
`Final("b")` commits `"b"` yet leaves `interimTranscript = "a"`, so the field
is not empty immediately after a final transcript event. -/
theorem interim_stale_rev1 :
    ((DG.onTranscriptRev1 ⟨"", "a", false, true⟩ ⟨"b", true, false⟩).1).interimTranscript = "a" ∧
    ("a" : String) ≠ "" := by
  decide

/-- C4 (amended): in the rev 2 handler, `interimTranscript` is empty
immediately after processing any final transcript event, and a
`speech_final`-triggered `SpeechEnded` resets the whole service state,
leaving the interim field empty as well; rev 1 only keeps the stale
hypothesis out of the emitted display string, not out of the stored field. -/
theorem interim_cleared_rev2 (s : DG.DGState) (d : DG.TranscriptEvent)
    (ht : d.transcript ≠ "") :
    (d.is_final = true →
      ((DG.onTranscriptRev2 s d).1).interimTranscript = "") ∧
    (d.speech_final = true → s.hasSpeechFinal = false →
      ((DG.onTranscriptRev2 s d).1).interimTranscript = "") := by
  constructor
  · intro hfin
    by_cases hsp : d.speech_final = true <;>
      by_cases hsf : s.hasSpeechFinal = true <;>
        simp [DG.onTranscriptRev2, DG.dgStop, ht, hfin, hsp, hsf]
  · intro hsp hsf
    by_cases hfin : d.is_final = true <;>
      simp [DG.onTranscriptRev2, DG.dgStop, ht, hfin, hsp, hsf]

/-- Witness for the amended C4: the same input that traps rev 1 leaves an
empty interim field in rev 2. -/
theorem interim_cleared_rev2_witness :
    ((DG.onTranscriptRev2 ⟨"", "a", false, true⟩ ⟨"b", true, false⟩).1).interimTranscript = "" :=
  (interim_cleared_rev2 ⟨"", "a", false, true⟩ ⟨"b", true, false⟩ (by decide)).1 rfl

